import Mathlib

/-!
# Error-handling middleware of `errors/app.errors.js`

The file exports two Express error handlers:

```
exports.handleSQLError = (err, req, res, next) =>{
    if(err.code === '23502' || err.code === '22P02'){
        res.status(400).send({msg: 'Bad Request'})
    }
    next(err)
}

exports.handleCustomErrors = (err, req, res, next) => {
    if(err.status){
        res.status(err.status).send({msg: err.msg})
    }
}
```

They are embedded as state transformers over a record of what has been done to
the response object and of which errors were handed to the framework through
`next`.  A handler receives `next` as a continuation, so the same definition
serves alone (with a recording `next`) and inside the chain (with the following
handler as `next`).
-/

namespace AppErrors

/-! ## JavaScript values read by the handlers -/

/-- JavaScript values, as far as the two handlers can tell them apart: they test
`err.status` for truthiness and compare `err.code` with `===` against string
literals.  Numbers are the integers and `NaN` (a fractional number is truthy and
never `===` a string, like a non-zero integer); `obj` is a reference to any
object, array or function. -/
inductive JSVal where
  | undefined
  | null
  | bool (b : Bool)
  | num (n : Int)
  | nan
  | str (s : String)
  | obj (ref : Nat)
  deriving DecidableEq, Repr

namespace JSVal

/-- The `ToBoolean` conversion made by `if (v)`: `undefined`, `null`, `false`,
`0`, `NaN` and the empty string are falsy, every other value is truthy. -/
def truthy : JSVal → Bool
  | undefined => false
  | null => false
  | bool b => b
  | num n => decide (n ≠ 0)
  | nan => false
  | str s => decide (s ≠ "")
  | obj _ => true

/-- The strict equality `a === b`: no conversion, `NaN` differs from everything,
objects are equal when they are the same reference. -/
def strictEq (a b : JSVal) : Bool :=
  if a = nan then false else decide (a = b)

end JSVal

/-! ## Errors, requests and the response object -/

/-- The error value given to a handler: the three properties the handlers read
and, in `rest`, every other property it has (message text, detail, stack ...).
A property the value lacks reads as `undefined`. -/
structure Err where
  code : JSVal
  status : JSVal
  msg : JSVal
  rest : List (String × JSVal)
  deriving DecidableEq, Repr

/-- The request object; neither handler reads it. -/
structure Req where
  method : String
  url : String
  deriving DecidableEq, Repr

/-- The object literal `{msg: v}` given to `res.send`. -/
structure Body where
  msg : JSVal
  deriving DecidableEq, Repr

/-- One invocation of `res.send`: the status code in force and the body. -/
structure Response where
  status : JSVal
  body : Body
  deriving DecidableEq, Repr

/-- What the handlers have done so far: the status code set on `res`, the
invocations of `res.send` (oldest first), and the errors handed to the
framework by the last `next` of the chain (oldest first). -/
structure Res where
  statusCode : JSVal
  sent : List Response
  escaped : List Err
  deriving DecidableEq, Repr

namespace Res

/-- A fresh response: status code 200, nothing sent, nothing handed on. -/
def init : Res := ⟨JSVal.num 200, [], []⟩

/-- The call `res.status(code)`: sets the status code and returns `res`. -/
def status (res : Res) (code : JSVal) : Res :=
  { res with statusCode := code }

/-- The call `res.send(body)`: one more response, with the status code in force. -/
def send (res : Res) (body : Body) : Res :=
  { res with sent := res.sent ++ [⟨res.statusCode, body⟩] }

end Res

/-- The continuation type of `next`: it is called with an error and goes on from
the current state of the response. -/
abbrev Next := Err → Res → Res

/-- The `next` that stands for the framework after the last handler: it only
records the error it was called with. -/
def recordNext : Next :=
  fun err res => { res with escaped := res.escaped ++ [err] }

/-! ## The two handlers -/

/-- The handler `handleSQLError(err, req, res, next)`. -/
def handleSQLError (err : Err) (_req : Req) (res : Res) (next : Next) : Res :=
  let res1 :=
    if err.code.strictEq (JSVal.str "23502") || err.code.strictEq (JSVal.str "22P02") then
      (res.status (JSVal.num 400)).send ⟨JSVal.str "Bad Request"⟩
    else
      res
  next err res1

/-- The handler `handleCustomErrors(err, req, res, next)`; it has no call of
`next`. -/
def handleCustomErrors (err : Err) (_req : Req) (res : Res) (_next : Next) : Res :=
  if err.status.truthy then
    (res.status err.status).send ⟨err.msg⟩
  else
    res

/-- Modelled from the spec: the registration of the handlers (the application
wiring is not among the sources).  The storage-level handler comes first and its
`next(err)` enters `handleCustomErrors` with that error, the same request and
response; `next` is what follows the chain. -/
def chain (err : Err) (req : Req) (res : Res) (next : Next) : Res :=
  handleSQLError err req res (fun e r => handleCustomErrors e req r next)

/-! ## Concrete inputs -/

/-- A request for an article with a malformed id. -/
def reqInvalidId : Req := ⟨"GET", "/api/articles/pigeon"⟩

/-- The driver error of an invalid text representation. -/
def errInvalidText : Err :=
  ⟨JSVal.str "22P02", JSVal.undefined, JSVal.undefined,
    [("message", JSVal.str "invalid input syntax for type integer"), ("severity", JSVal.str "ERROR")]⟩

/-- The driver error of a not-null violation. -/
def errNotNull : Err :=
  ⟨JSVal.str "23502", JSVal.undefined, JSVal.undefined, [("column", JSVal.str "body")]⟩

/-- The rejection `{status: 404, msg: 'Not found'}` raised by the application. -/
def errNotFound : Err :=
  ⟨JSVal.undefined, JSVal.num 404, JSVal.str "Not found", []⟩

/-- The rejection `{status: 404, msg: 'Not Found'}`, with the other casing. -/
def errNotFoundCaps : Err :=
  ⟨JSVal.undefined, JSVal.num 404, JSVal.str "Not Found", []⟩

/-- An error with a recognized storage code that also carries a status. -/
def errCodeAndStatus : Err :=
  ⟨JSVal.str "22P02", JSVal.num 404, JSVal.str "Not found", []⟩

/-- An error with neither code nor status, such as `new Error('boom')`. -/
def errPlain : Err :=
  ⟨JSVal.undefined, JSVal.undefined, JSVal.undefined, [("message", JSVal.str "boom")]⟩

/-- A driver error with a code the handlers do not recognize (foreign key). -/
def errForeignKey : Err :=
  ⟨JSVal.str "23503", JSVal.undefined, JSVal.undefined, [("message", JSVal.str "violates foreign key")]⟩

/-- The response `400 {msg: 'Bad Request'}`. -/
def badRequest : Response := ⟨JSVal.num 400, ⟨JSVal.str "Bad Request"⟩⟩

/-! ## Lemmas on the handlers -/

theorem strictEq_str_iff (v : JSVal) (s : String) :
    v.strictEq (JSVal.str s) = true ↔ v = JSVal.str s := by
  unfold JSVal.strictEq
  constructor
  · intro h
    split at h
    · simp at h
    · simpa using h
  · intro h
    subst h
    simp

/-- The test of `handleSQLError`, as a proposition on the code. -/
theorem recognized_iff (err : Err) :
    (err.code.strictEq (JSVal.str "23502") || err.code.strictEq (JSVal.str "22P02")) = true ↔
      (err.code = JSVal.str "23502" ∨ err.code = JSVal.str "22P02") := by
  rw [Bool.or_eq_true, strictEq_str_iff, strictEq_str_iff]

theorem handleSQLError_recognized (err : Err) (req : Req) (res : Res) (next : Next)
    (h : err.code = JSVal.str "23502" ∨ err.code = JSVal.str "22P02") :
    handleSQLError err req res next =
      next err ((res.status (JSVal.num 400)).send ⟨JSVal.str "Bad Request"⟩) := by
  have ht := (recognized_iff err).mpr h
  simp only [handleSQLError, ht, if_true]

theorem handleSQLError_other (err : Err) (req : Req) (res : Res) (next : Next)
    (h1 : err.code ≠ JSVal.str "23502") (h2 : err.code ≠ JSVal.str "22P02") :
    handleSQLError err req res next = next err res := by
  have ht : (err.code.strictEq (JSVal.str "23502") || err.code.strictEq (JSVal.str "22P02")) = false := by
    rw [Bool.eq_false_iff]
    intro hc
    rcases (recognized_iff err).mp hc with h | h
    · exact h1 h
    · exact h2 h
  simp only [handleSQLError, ht]
  rfl

theorem handleCustomErrors_truthy (err : Err) (req : Req) (res : Res) (next : Next)
    (h : err.status.truthy = true) :
    handleCustomErrors err req res next = (res.status err.status).send ⟨err.msg⟩ := by
  simp only [handleCustomErrors, h, if_true]

/-- A status that is absent or falsy (`undefined`, `null`, `false`, `0`, `NaN`,
`''`) makes `handleCustomErrors` do nothing at all: no response, no `next`. -/
theorem handleCustomErrors_falsy (err : Err) (req : Req) (res : Res) (next : Next)
    (h : err.status.truthy = false) :
    handleCustomErrors err req res next = res := by
  simp only [handleCustomErrors, h]
  rfl

/-! ## The claims -/

/-- C1 (the code breaks it): the chain invokes `res.send` twice for an error
that has a recognized storage code and a truthy status.  For
`{code: '22P02', status: 404, msg: 'Not found'}` the first handler sends
`400 Bad Request`, forwards the error regardless, and the second handler sends
`404 Not found` on the same response. -/
theorem C1_chain_sends_twice :
    (chain errCodeAndStatus reqInvalidId Res.init recordNext).sent =
        [badRequest, ⟨JSVal.num 404, ⟨JSVal.str "Not found"⟩⟩] ∧
      (chain errCodeAndStatus reqInvalidId Res.init recordNext).sent.length = 2 := by
  constructor <;> rfl

/-- C2: for an error whose code is `'23502'` or `'22P02'`, `handleSQLError`
sets status 400 and sends `{msg: 'Bad Request'}` before it goes on to `next`;
run alone, it adds exactly that response to what was sent. -/
theorem C2_handleSQLError_bad_request (err : Err) (req : Req) (res : Res) (next : Next)
    (h : err.code = JSVal.str "23502" ∨ err.code = JSVal.str "22P02") :
    handleSQLError err req res next =
        next err ((res.status (JSVal.num 400)).send ⟨JSVal.str "Bad Request"⟩) ∧
      (handleSQLError err req res recordNext).sent = res.sent ++ [badRequest] := by
  refine ⟨handleSQLError_recognized err req res next h, ?_⟩
  rw [handleSQLError_recognized err req res recordNext h]
  rfl

theorem C2_witness :
    (errNotNull.code = JSVal.str "23502" ∨ errNotNull.code = JSVal.str "22P02") ∧
      (handleSQLError errNotNull reqInvalidId Res.init recordNext).sent = [badRequest] :=
  ⟨Or.inl rfl,
    (C2_handleSQLError_bad_request errNotNull reqInvalidId Res.init recordNext (Or.inl rfl)).2⟩

/-- C3: for an error carrying a status (the handler's test: `err.status` is
truthy), `handleCustomErrors` sends exactly one response, with status
`err.status` and body `{msg: err.msg}`, the message value untouched; it does so
whatever `next` is, which it never calls. -/
theorem C3_handleCustomErrors_verbatim (err : Err) (req : Req) (res : Res) (next : Next)
    (h : err.status.truthy = true) :
    (handleCustomErrors err req res next).sent = res.sent ++ [⟨err.status, ⟨err.msg⟩⟩] ∧
      (handleCustomErrors err req res next).escaped = res.escaped := by
  rw [handleCustomErrors_truthy err req res next h]
  exact ⟨rfl, rfl⟩

theorem C3_witness :
    errNotFoundCaps.status.truthy = true ∧
      (handleCustomErrors errNotFoundCaps reqInvalidId Res.init recordNext).sent =
        [⟨JSVal.num 404, ⟨JSVal.str "Not Found"⟩⟩] :=
  ⟨rfl, (C3_handleCustomErrors_verbatim errNotFoundCaps reqInvalidId Res.init recordNext rfl).1⟩

/-- C4 (the code breaks it): for an error with neither a recognized code nor a
status the chain sends no response, but `handleCustomErrors` does not call
`next` either: on `new Error('boom')` the chain leaves the response as it was
and nothing reaches the handler that follows. -/
theorem C4_chain_drops_unclassified :
    chain errPlain reqInvalidId Res.init recordNext = Res.init ∧
      (chain errPlain reqInvalidId Res.init recordNext).sent = [] ∧
      (chain errPlain reqInvalidId Res.init recordNext).escaped = [] := by
  refine ⟨?_, ?_, ?_⟩ <;> rfl

/-- C5: for an error whose code is neither `'23502'` nor `'22P02'`,
`handleSQLError` is exactly one call of `next` with that error on the untouched
response: run alone it sends nothing and hands on the one error, and in the
chain `handleCustomErrors` receives the error as it came. -/
theorem C5_handleSQLError_forwards (err : Err) (req : Req) (res : Res) (next : Next)
    (h1 : err.code ≠ JSVal.str "23502") (h2 : err.code ≠ JSVal.str "22P02") :
    handleSQLError err req res next = next err res ∧
      (handleSQLError err req res recordNext).sent = res.sent ∧
      (handleSQLError err req res recordNext).escaped = res.escaped ++ [err] ∧
      chain err req res next = handleCustomErrors err req res next := by
  refine ⟨handleSQLError_other err req res next h1 h2, ?_, ?_, ?_⟩
  · rw [handleSQLError_other err req res recordNext h1 h2]
    rfl
  · rw [handleSQLError_other err req res recordNext h1 h2]
    rfl
  · unfold chain
    rw [handleSQLError_other err req res _ h1 h2]

theorem C5_witness :
    (errForeignKey.code ≠ JSVal.str "23502" ∧ errForeignKey.code ≠ JSVal.str "22P02") ∧
      (handleSQLError errForeignKey reqInvalidId Res.init recordNext).sent = [] ∧
      (handleSQLError errForeignKey reqInvalidId Res.init recordNext).escaped = [errForeignKey] :=
  ⟨⟨by decide, by decide⟩,
    (C5_handleSQLError_forwards errForeignKey reqInvalidId Res.init recordNext
      (by decide) (by decide)).2.1,
    (C5_handleSQLError_forwards errForeignKey reqInvalidId Res.init recordNext
      (by decide) (by decide)).2.2.1⟩

/-- C6: for a storage error with code `'22P02'` or `'23502'` and no status
(`err.status` absent or falsy), the whole chain is the one response
`400 {msg: 'Bad Request'}`: it adds exactly that response to what was sent,
whatever follows the chain, and on a fresh response it is the only one. -/
theorem C6_chain_storage_error (err : Err) (req : Req) (res : Res) (next : Next)
    (hc : err.code = JSVal.str "22P02" ∨ err.code = JSVal.str "23502")
    (hs : err.status.truthy = false) :
    chain err req res next = (res.status (JSVal.num 400)).send ⟨JSVal.str "Bad Request"⟩ ∧
      (chain err req res next).sent = res.sent ++ [badRequest] ∧
      (chain err req Res.init next).sent = [badRequest] := by
  have key : ∀ r : Res,
      chain err req r next = (r.status (JSVal.num 400)).send ⟨JSVal.str "Bad Request"⟩ := by
    intro r
    unfold chain
    rw [handleSQLError_recognized err req r _ hc.symm]
    exact handleCustomErrors_falsy err req _ next hs
  refine ⟨key res, ?_, ?_⟩
  · rw [key res]
    rfl
  · rw [key Res.init]
    rfl

theorem C6_witness :
    (errInvalidText.code = JSVal.str "22P02" ∨ errInvalidText.code = JSVal.str "23502") ∧
      errInvalidText.status.truthy = false ∧
      (chain errInvalidText reqInvalidId Res.init recordNext).sent = [badRequest] :=
  ⟨Or.inl rfl, rfl,
    (C6_chain_storage_error errInvalidText reqInvalidId Res.init recordNext (Or.inl rfl) rfl).2.2⟩

/-- C7: for an error raised by the application with a status (truthy
`err.status`) and a message and no recognized storage code, the whole chain is
the one response with status `err.status` and body `{msg: err.msg}`: it adds
exactly that response to what was sent, and on a fresh response it is the only
one. -/
theorem C7_chain_application_error (err : Err) (req : Req) (res : Res) (next : Next)
    (h1 : err.code ≠ JSVal.str "23502") (h2 : err.code ≠ JSVal.str "22P02")
    (hs : err.status.truthy = true) :
    chain err req res next = (res.status err.status).send ⟨err.msg⟩ ∧
      (chain err req res next).sent = res.sent ++ [⟨err.status, ⟨err.msg⟩⟩] ∧
      (chain err req Res.init next).sent = [⟨err.status, ⟨err.msg⟩⟩] := by
  have key : ∀ r : Res, chain err req r next = (r.status err.status).send ⟨err.msg⟩ := by
    intro r
    unfold chain
    rw [handleSQLError_other err req r _ h1 h2]
    exact handleCustomErrors_truthy err req r next hs
  refine ⟨key res, ?_, ?_⟩
  · rw [key res]
    rfl
  · rw [key Res.init]
    rfl

theorem C7_witness :
    (errNotFound.code ≠ JSVal.str "23502" ∧ errNotFound.code ≠ JSVal.str "22P02") ∧
      errNotFound.status.truthy = true ∧
      (chain errNotFound reqInvalidId Res.init recordNext).sent =
        [⟨JSVal.num 404, ⟨JSVal.str "Not found"⟩⟩] :=
  ⟨⟨by decide, by decide⟩, rfl,
    (C7_chain_application_error errNotFound reqInvalidId Res.init recordNext
      (by decide) (by decide) rfl).2.2⟩

/-- C8: `handleSQLError` classifies by the code alone: two errors with the same
code, whatever their status, message and other properties, leave the response
in one and the same state when `next` is called (the same responses sent or not
sent), so run alone they produce the same list of responses. -/
theorem C8_handleSQLError_code_only (e1 e2 : Err) (req1 req2 : Req) (res : Res)
    (h : e1.code = e2.code) :
    (∃ r : Res, ∀ next : Next,
        handleSQLError e1 req1 res next = next e1 r ∧
        handleSQLError e2 req2 res next = next e2 r) ∧
      (handleSQLError e1 req1 res recordNext).sent =
        (handleSQLError e2 req2 res recordNext).sent := by
  by_cases hc : e1.code = JSVal.str "23502" ∨ e1.code = JSVal.str "22P02"
  · have hc2 : e2.code = JSVal.str "23502" ∨ e2.code = JSVal.str "22P02" := h ▸ hc
    refine ⟨⟨(res.status (JSVal.num 400)).send ⟨JSVal.str "Bad Request"⟩, fun next =>
      ⟨handleSQLError_recognized e1 req1 res next hc,
        handleSQLError_recognized e2 req2 res next hc2⟩⟩, ?_⟩
    rw [handleSQLError_recognized e1 req1 res recordNext hc,
      handleSQLError_recognized e2 req2 res recordNext hc2]
    rfl
  · have a1 : e1.code ≠ JSVal.str "23502" := fun x => hc (Or.inl x)
    have a2 : e1.code ≠ JSVal.str "22P02" := fun x => hc (Or.inr x)
    have b1 : e2.code ≠ JSVal.str "23502" := h ▸ a1
    have b2 : e2.code ≠ JSVal.str "22P02" := h ▸ a2
    refine ⟨⟨res, fun next =>
      ⟨handleSQLError_other e1 req1 res next a1 a2,
        handleSQLError_other e2 req2 res next b1 b2⟩⟩, ?_⟩
    rw [handleSQLError_other e1 req1 res recordNext a1 a2,
      handleSQLError_other e2 req2 res recordNext b1 b2]
    rfl

theorem C8_witness :
    errInvalidText.code = errCodeAndStatus.code ∧
      (handleSQLError errInvalidText reqInvalidId Res.init recordNext).sent =
        (handleSQLError errCodeAndStatus reqInvalidId Res.init recordNext).sent :=
  ⟨rfl,
    (C8_handleSQLError_code_only errInvalidText errCodeAndStatus reqInvalidId reqInvalidId
      Res.init rfl).2⟩

/-- C9: the storage-level check comes first: for an error with a recognized
storage code that also carries a status (truthy `err.status`), the first
response the chain sends is the `400 {msg: 'Bad Request'}` of `handleSQLError`;
the response with the error's own status and message comes after it. -/
theorem C9_chain_storage_check_first (err : Err) (req : Req) (res : Res) (next : Next)
    (hc : err.code = JSVal.str "23502" ∨ err.code = JSVal.str "22P02")
    (hs : err.status.truthy = true) :
    (chain err req Res.init next).sent.head? = some badRequest ∧
      (chain err req res next).sent =
        res.sent ++ [badRequest, ⟨err.status, ⟨err.msg⟩⟩] := by
  have key : ∀ r : Res, chain err req r next =
      (((r.status (JSVal.num 400)).send ⟨JSVal.str "Bad Request"⟩).status err.status).send
        ⟨err.msg⟩ := by
    intro r
    unfold chain
    rw [handleSQLError_recognized err req r _ hc]
    exact handleCustomErrors_truthy err req _ next hs
  constructor
  · rw [key Res.init]
    rfl
  · rw [key res]
    simp [Res.send, Res.status, badRequest]

theorem C9_witness :
    (errCodeAndStatus.code = JSVal.str "23502" ∨ errCodeAndStatus.code = JSVal.str "22P02") ∧
      errCodeAndStatus.status.truthy = true ∧
      (chain errCodeAndStatus reqInvalidId Res.init recordNext).sent.head? = some badRequest :=
  ⟨Or.inr rfl, rfl,
    (C9_chain_storage_check_first errCodeAndStatus reqInvalidId Res.init recordNext
      (Or.inr rfl) rfl).1⟩

/-- C10: `handleSQLError` calls `next` exactly once, with the error as it came,
for every error and whatever the code: its result is `next err` on one response
state that does not depend on `next`, and with the recording `next` exactly the
one error is handed on, also after the `400` response was sent. -/
theorem C10_handleSQLError_always_forwards (err : Err) (req : Req) (res : Res) :
    (∃ r : Res, ∀ next : Next, handleSQLError err req res next = next err r) ∧
      (handleSQLError err req res recordNext).escaped = res.escaped ++ [err] ∧
      (handleSQLError errInvalidText reqInvalidId Res.init recordNext).sent = [badRequest] ∧
      (handleSQLError errInvalidText reqInvalidId Res.init recordNext).escaped =
        [errInvalidText] := by
  refine ⟨⟨_, fun next => rfl⟩, ?_, rfl, rfl⟩
  by_cases hc : err.code = JSVal.str "23502" ∨ err.code = JSVal.str "22P02"
  · rw [handleSQLError_recognized err req res recordNext hc]
    rfl
  · rw [handleSQLError_other err req res recordNext (fun x => hc (Or.inl x))
      (fun x => hc (Or.inr x))]
    rfl

end AppErrors
